import Mathlib

/-!
# Verification of the agentscope-runtime multi-sandbox core

Shallow embedding of the on-demand multi-sandbox registry and dynamic
tool-binding mechanism of the repository:

* `examples/agentbay_sandbox/backend/multi_sandbox_manager.py`
  (`MultiSandboxManager`: `ensure_sandbox`, `get_sandbox`,
  `get_sandbox_by_id`, `get_all_tools`, `cleanup_all_sandboxes`)
* `examples/agentbay_sandbox/backend/tool_registry.py`
  (`ToolRegistry.register_all_tools`)
* `examples/agentbay_sandbox/backend/agent_service.py`
  (`AgentService.create_sandbox`)
* `src/agentscope_runtime/sandbox/box/agentbay/agentbay_sandbox_base.py`
  (`_call_cloud_tool`, `_generic_tool_call`)
* `src/agentscope_runtime/sandbox/box/agentbay/agentbay_linux_sandbox.py`
  (tool mapping, `_execute_command`, ..., `list_tools`)
* `src/agentscope_runtime/sandbox/custom/agb_sandbox.py`
  (`AgbSandbox.call_tool` and the tool methods it dispatches to)

Python dictionaries holding JSON-like results are embedded as association
lists over a small `Value` type; Python exceptions become an explicit
`Exc` value carried in `Except`, with the catch lists of each
`try/except` written out exactly as in the source.  Vendor (AgentBay /
AGB cloud) behaviour is a parameter of every operation: the vendor is
external to the repository, so each embedded operation takes the
outcome of the vendor call it would perform as an explicit argument.
-/

deriving instance DecidableEq for Except

namespace AgentscopeRuntime

/-- Python exception classes that occur in the relevant `except` clauses
and `raise` statements of the embedded code. -/
inductive ExcKind where
  | runtimeError
  | valueError
  | attributeError
  | typeError
  | notImplementedError
  | importError
  deriving DecidableEq, Repr

/-- A raised Python exception: its class and its `str(e)` text. -/
structure Exc where
  kind : ExcKind
  msg : String
  deriving DecidableEq, Repr

/-- JSON-like values appearing in the result dictionaries produced by the
embedded code.  `strMap` covers the `arguments` dictionaries that
`_call_cloud_tool` copies into its error results. -/
inductive Value where
  | null
  | bool (b : Bool)
  | str (s : String)
  | int (n : Int)
  | strMap (m : List (String × String))
  deriving DecidableEq, Repr

/-- A Python result dictionary: an association list of keys to values. -/
abbrev ResultDict := List (String × Value)

/-- Tool-call keyword arguments (`arguments` dicts are string-valued in
every call site the claims touch). -/
abbrev Args := List (String × String)

/-- `arguments.get(key, default)`. -/
def argsGet (args : Args) (key dflt : String) : String :=
  match args.lookup key with
  | some v => v
  | none => dflt

/-- The four sandbox kinds in `MultiSandboxManager.SANDBOX_CLASSES`. -/
inductive Kind where
  | linux
  | windows
  | browser
  | mobile
  deriving DecidableEq, Repr

def Kind.toName : Kind → String
  | .linux => "linux"
  | .windows => "windows"
  | .browser => "browser"
  | .mobile => "mobile"

/-- Membership in `SANDBOX_CLASSES` (`sandbox_type in self.SANDBOX_CLASSES`):
the map has exactly the four kind keys. -/
def parseKind : String → Option Kind
  | "linux" => some Kind.linux
  | "windows" => some Kind.windows
  | "browser" => some Kind.browser
  | "mobile" => some Kind.mobile
  | _ => none

/-- Iteration order of `self.sandboxes` (Python dicts preserve the
insertion order fixed in `__init__`). -/
def allKinds : List Kind := [Kind.linux, Kind.windows, Kind.browser, Kind.mobile]

/-- `MultiSandboxManager.IMAGE_IDS`. -/
def IMAGE_IDS : Kind → String
  | .linux => "linux_latest"
  | .windows => "windows_latest"
  | .browser => "browser_latest"
  | .mobile => "mobile_latest"

/-- A live sandbox handle, as stored in `self.sandboxes[kind]`.  `sid` is
the vendor-issued `sandbox_id`; `kind` records which `SANDBOX_CLASSES`
entry constructed it; `seq` is the running number of the vendor session
creation that produced it, giving each created handle a distinct
identity (Python object identity). -/
structure Handle where
  sid : String
  kind : Kind
  seq : Nat
  deriving DecidableEq, Repr

/-- The mutable state of a `MultiSandboxManager`: one slot per kind
(`self.sandboxes`, initialized to four `None` entries) plus
`self.sandbox_id_to_type`. -/
structure ManagerState where
  linuxSlot : Option Handle
  windowsSlot : Option Handle
  browserSlot : Option Handle
  mobileSlot : Option Handle
  idToType : List (String × String)
  deriving DecidableEq, Repr

/-- The state produced by `MultiSandboxManager.__init__`. -/
def initialManagerState : ManagerState :=
  { linuxSlot := none, windowsSlot := none, browserSlot := none
    mobileSlot := none, idToType := [] }

/-- `self.sandboxes[kind]` for a known kind. -/
def getSlotK (st : ManagerState) : Kind → Option Handle
  | .linux => st.linuxSlot
  | .windows => st.windowsSlot
  | .browser => st.browserSlot
  | .mobile => st.mobileSlot

/-- `self.sandboxes.get(sandbox_type)`: `None` for keys outside the four
kind keys the dictionary ever holds. -/
def getSlot (st : ManagerState) (k : String) : Option Handle :=
  match parseKind k with
  | some kd => getSlotK st kd
  | none => none

/-- `self.sandboxes[kind] = h`. -/
def setSlotK (st : ManagerState) (kd : Kind) (h : Option Handle) : ManagerState :=
  match kd with
  | .linux => { st with linuxSlot := h }
  | .windows => { st with windowsSlot := h }
  | .browser => { st with browserSlot := h }
  | .mobile => { st with mobileSlot := h }

/-- Python dict assignment `d[key] = v` on an association list: replaces
an existing binding in place, otherwise appends. -/
def dictInsert (d : List (String × String)) (key v : String) : List (String × String) :=
  match d with
  | [] => [(key, v)]
  | (k', v') :: rest =>
      if k' = key then (key, v) :: rest else (k', v') :: dictInsert rest key v

/-- Vendor-world bookkeeping, separate from the manager's own state: the
number of cloud sessions the vendor has actually created. -/
structure World where
  sessionsCreated : Nat
  deriving DecidableEq, Repr

def initialWorld : World := { sessionsCreated := 0 }

/-- Outcome of running `sandbox_class(api_key=..., image_id=...)`, which
creates the cloud session as a side effect (`_create_cloud_sandbox`):
either the vendor created a session with the given `session_id`, or the
constructor completed but no session/id was produced
(`_create_cloud_sandbox` returned `None`), or the constructor raised. -/
inductive CreateOutcome where
  | ok (sid : String)
  | noId
  | raised (e : Exc)
  deriving DecidableEq, Repr

/-- The `except (RuntimeError, ValueError, AttributeError)` clause of
`ensure_sandbox` (multi_sandbox_manager.py lines 228-234). -/
def ensureCaught : List ExcKind :=
  [ExcKind.runtimeError, ExcKind.valueError, ExcKind.attributeError]

/-- `MultiSandboxManager.ensure_sandbox` (multi_sandbox_manager.py lines
177-234).  `outcome` is what the vendor constructor does if it is
reached.  The trailing `await self._notify_sandbox_created(...)` wraps
the user callback in its own `except` clause and does not touch the
manager's state, so it contributes nothing here. -/
def ensureSandbox (st : ManagerState) (w : World) (k : String)
    (outcome : CreateOutcome) :
    Except Exc (Option Handle) × ManagerState × World :=
  -- if self.sandboxes.get(sandbox_type): return self.sandboxes[sandbox_type]
  match getSlot st k with
  | some h => (.ok (some h), st, w)
  | none =>
    -- if sandbox_type not in self.SANDBOX_CLASSES: return None
    match parseKind k with
    | none => (.ok none, st, w)
    | some kd =>
      match outcome with
      | .raised e =>
          if e.kind ∈ ensureCaught then (.ok none, st, w) else (.error e, st, w)
      | .noId => (.ok none, st, w)
      | .ok sid =>
          let w' : World := { sessionsCreated := w.sessionsCreated + 1 }
          -- if sandbox_id: ... else: return None
          if sid = "" then (.ok none, st, w')
          else
            let h : Handle := { sid := sid, kind := kd, seq := w.sessionsCreated }
            (.ok (some h),
             { setSlotK st kd (some h) with
                 idToType := dictInsert st.idToType sid k },
             w')

/-- `MultiSandboxManager.get_sandbox` (non-creating lookup). -/
def getSandbox (st : ManagerState) (k : String) : Option Handle :=
  getSlot st k

/-- `MultiSandboxManager.get_sandbox_by_id` (multi_sandbox_manager.py
lines 248-262): look up the kind recorded for the id, then return
whatever handle is currently stored for that kind. -/
def getSandboxById (st : ManagerState) (sid : String) : Option Handle :=
  match st.idToType.lookup sid with
  | some k => getSlot st k
  | none => none

/-- The `except (RuntimeError, AttributeError, ValueError)` clauses of
`cleanup_all_sandboxes` (both the per-handle one and the outer one use
the same class list, multi_sandbox_manager.py lines 384 and 402). -/
def cleanupCaught : List ExcKind :=
  [ExcKind.runtimeError, ExcKind.attributeError, ExcKind.valueError]

/-- The per-handle loop of `cleanup_all_sandboxes`: for each kind, in
dict order, call `sandbox.cleanup()` on an occupied slot.  `fail kd`
says whether that handle's `cleanup()` raises and with what.  Returns
the kinds whose `cleanup()` was invoked.  A raised exception whose class
is in `cleanupCaught` is logged and the loop continues; any other class
escapes the inner clause, and since the outer clause catches the same
classes, it propagates out of `cleanup_all_sandboxes` entirely (with the
dictionary left unreset). -/
def cleanupLoop (st : ManagerState) (fail : Kind → Option Exc) :
    List Kind → Except Exc (List Kind)
  | [] => .ok []
  | kd :: rest =>
    match getSlotK st kd with
    | none => cleanupLoop st fail rest
    | some _ =>
      match fail kd with
      | none => (cleanupLoop st fail rest).map (kd :: ·)
      | some e =>
          if e.kind ∈ cleanupCaught then (cleanupLoop st fail rest).map (kd :: ·)
          else .error e

/-- `MultiSandboxManager.cleanup_all_sandboxes` (multi_sandbox_manager.py
lines 372-404): clean up each live handle, then reset `self.sandboxes`
to four `None` entries.  `self.sandbox_id_to_type` is not touched.
Besides the final state it returns the list of kinds whose handle was
torn down. -/
def cleanupAllSandboxes (st : ManagerState) (fail : Kind → Option Exc) :
    Except Exc (ManagerState × List Kind) :=
  match cleanupLoop st fail allKinds with
  | .error e => .error e
  | .ok torn =>
      .ok ({ linuxSlot := none, windowsSlot := none, browserSlot := none,
             mobileSlot := none, idToType := st.idToType }, torn)

/-! ## Static per-kind tool tables

Each `list_tools` override returns a hard-coded table; the lists below
are the `all_tools` concatenations in source order. -/

/-- `AgentbayLinuxSandbox.list_tools`: `file_tools + command_tools`. -/
def linuxTools : List String :=
  ["read_file", "write_file", "list_directory", "create_directory",
   "move_file", "delete_file", "run_shell_command", "run_ipython_cell"]

/-- `AgentbayWindowsSandbox.list_tools`:
`file_tools + command_tools + desktop_tools + system_tools`. -/
def windowsTools : List String :=
  ["read_file", "write_file", "list_directory", "create_directory",
   "move_file", "delete_file", "run_shell_command", "start_app",
   "stop_app", "input_text", "window_maximize", "window_minimize",
   "screenshot"]

/-- `AgentbayBrowserSandbox.list_tools`:
`file_tools + browser_tools + agent_tools`. -/
def browserTools : List String :=
  ["read_file", "write_file", "list_directory", "browser_navigate",
   "browser_click", "browser_input", "browser_agent_navigate",
   "browser_agent_act", "browser_agent_extract", "browser_agent_observe",
   "browser_screenshot"]

/-- `AgentbayMobileSandbox.list_tools`:
`file_tools + ui_tools + app_tools + system_tools`. -/
def mobileTools : List String :=
  ["read_file", "write_file", "list_directory", "mobile_click",
   "mobile_swipe", "mobile_input_text", "mobile_send_key",
   "mobile_start_app", "mobile_stop_app", "mobile_screenshot"]

/-- The `"tools"` entry of `list_tools()` (no `tool_type` filter) for
each sandbox class. -/
def listToolsOfKind : Kind → List String
  | .linux => linuxTools
  | .windows => windowsTools
  | .browser => browserTools
  | .mobile => mobileTools

/-- The result dictionary of a `list_tools()` call, restricted to the
keys `get_all_tools` / `register_all_tools` consume: `"tools"`, the
optional `"error"` and `"status"` markers added by `get_all_tools` on
failure, plus the `"sandbox_id"` and `"total_count"` entries of the
underlying table. -/
structure ToolsInfo where
  tools : List String
  error : Option String
  status : Option String
  sandboxId : Option String
  totalCount : Nat
  deriving DecidableEq, Repr

/-- `MultiSandboxManager.get_all_tools` (multi_sandbox_manager.py lines
276-337).  An occupied slot answers with its handle's `list_tools()`; an
empty slot answers through a temporary instance made with
`cls.__new__(cls)` — `__init__` is bypassed, so no vendor session is
created and `_sandbox_id` is `None`.  Both paths end in the same pure
hard-coded tables, so the two `except` fallbacks (which would record an
`"error"` entry) are unreachable and do not appear. -/
def getAllTools (st : ManagerState) : List (String × ToolsInfo) :=
  allKinds.map fun kd =>
    (kd.toName,
     match getSlotK st kd with
     | some h =>
         { tools := listToolsOfKind h.kind, error := none, status := none,
           sandboxId := some h.sid, totalCount := (listToolsOfKind h.kind).length }
     | none =>
         { tools := listToolsOfKind kd, error := none, status := none,
           sandboxId := none, totalCount := (listToolsOfKind kd).length })

/-! ## Tool registry (`tool_registry.py`) -/

/-- `f"{sandbox_type}_{tool_name}"`, the wrapper naming rule
(tool_registry.py line 125 and line 199). -/
def wrapperName (k t : String) : String := k ++ "_" ++ t

/-- Modelled from the spec: `agentscope.tool.Toolkit.register_tool_function`
is external to this repository (the `agentscope` package is only
imported).  Per the spec's naming rule, a duplicate tool name is "a
configuration error", so registering a name the toolkit already holds
raises; a fresh name is appended. -/
def toolkitRegister (tk : List String) (name : String) :
    Except Exc (List String) :=
  if name ∈ tk then
    .error { kind := ExcKind.valueError,
             msg := "Tool function " ++ name ++ " is already registered" }
  else .ok (tk ++ [name])

/-- The `except (RuntimeError, ValueError, AttributeError)` clause around
tool registration (tool_registry.py lines 208-216). -/
def registryCaught : List ExcKind :=
  [ExcKind.runtimeError, ExcKind.valueError, ExcKind.attributeError]

/-- `self.registered_tools[full_tool_name] = {...}`: dict insert keyed by
the full wrapper name (value payload elided — the claims only concern
the key set). -/
def recordRegistered (reg : List String) (name : String) : List String :=
  if name ∈ reg then reg else reg ++ [name]

/-- The inner loop of `register_all_tools` over one kind's tool list
(tool_registry.py lines 175-216): build the wrapper, register it in the
toolkit, then record it in `registered_tools`.  An exception of a caught
class from registration is logged and the loop continues with the next
tool; any other class would propagate. -/
def registerTools (k : String) (tk reg : List String) :
    List String → Except Exc (List String × List String)
  | [] => .ok (tk, reg)
  | t :: rest =>
    match toolkitRegister tk (wrapperName k t) with
    | .ok tk' => registerTools k tk' (recordRegistered reg (wrapperName k t)) rest
    | .error e =>
        if e.kind ∈ registryCaught then registerTools k tk reg rest
        else .error e

/-- The skip test of `register_all_tools` (tool_registry.py lines
152-161): `"error" in tools_info and tools_info.get("status") !=
"not_initialized"`. -/
def skipEntry (info : ToolsInfo) : Bool :=
  info.error.isSome && info.status ≠ some "not_initialized"

/-- `ToolRegistry.register_all_tools` (tool_registry.py lines 135-219)
applied to a tools map (the result of `get_all_tools`): returns the
final toolkit function-name list and the `registered_tools` key list. -/
def registerAllTools (tk reg : List String) :
    List (String × ToolsInfo) → Except Exc (List String × List String)
  | [] => .ok (tk, reg)
  | (k, info) :: rest =>
    if skipEntry info then registerAllTools tk reg rest
    else
      match registerTools k tk reg info.tools with
      | .ok (tk', reg') => registerAllTools tk' reg' rest
      | .error e => .error e

/-! ## Service layer (`agent_service.py`) -/

/-- The `except (RuntimeError, ValueError, AttributeError)` clause of
`AgentService.create_sandbox` (agent_service.py lines 361-371). -/
def serviceCaught : List ExcKind :=
  [ExcKind.runtimeError, ExcKind.valueError, ExcKind.attributeError]

/-- `AgentService.create_sandbox` (agent_service.py lines 313-371).
`mgrPresent` models `self.sandbox_manager` being set; the literal kind
list `["linux", "windows", "browser", "mobile"]` checked by the source
coincides with the domain of `parseKind`, which also provides the
`IMAGE_IDS` key. -/
def createSandbox (mgrPresent : Bool) (st : ManagerState) (w : World)
    (k : String) (outcome : CreateOutcome) :
    Except Exc ResultDict × ManagerState × World :=
  if ¬ mgrPresent then
    (.ok [("success", Value.bool false),
          ("error", Value.str "Agent service not properly initialized.")],
     st, w)
  else
    match parseKind k with
    | none =>
        (.ok [("success", Value.bool false),
              ("error", Value.str ("Invalid sandbox type: " ++ k))],
         st, w)
    | some kd =>
      match ensureSandbox st w k outcome with
      | (.error e, st', w') =>
          if e.kind ∈ serviceCaught then
            (.ok [("success", Value.bool false), ("error", Value.str e.msg)],
             st', w')
          else (.error e, st', w')
      | (.ok none, st', w') =>
          (.ok [("success", Value.bool false),
                ("error", Value.str ("Failed to create sandbox " ++ k ++ "."))],
           st', w')
      | (.ok (some h), st', w') =>
          -- if sandbox_id: ... else fall through to the error dict
          if h.sid = "" then
            (.ok [("success", Value.bool false),
                  ("error", Value.str "Sandbox created but no sandbox_id returned")],
             st', w')
          else
            (.ok [("success", Value.bool true),
                  ("sandbox_id", Value.str h.sid),
                  ("sandbox_type", Value.str k),
                  ("image_id", Value.str (IMAGE_IDS kd))],
             st', w')

/-! ## AgentBay linux handle: `_call_cloud_tool` and the tool handlers

The vendor session object (`get_result.session`) is modelled by a record
of functions, one per SDK entry point the handlers use; each may either
return its result object or raise. -/

/-- Result object of `session.command.execute_command`.  `error` and
`exit_code` are `Option`s because the handlers probe them with
`hasattr`. -/
structure CommandResult where
  success : Bool
  output : String
  error : Option String
  exit_code : Option Int
  deriving DecidableEq, Repr

/-- Result object of `session.code.run_code`. -/
structure CodeRunResult where
  success : Bool
  result : String
  error : Option String
  deriving DecidableEq, Repr

/-- Result object of the `session.file_system.*` calls.  `content` and
`files` are probed with `hasattr`. -/
structure FileOpResult where
  success : Bool
  content : Option String
  files : Option (List String)
  error : Option String
  deriving DecidableEq, Repr

/-- The AgentBay session object as used by the linux tool handlers, plus
the `getattr` surface that `_generic_tool_call` probes with `hasattr`. -/
structure LinuxSession where
  executeCommand : String → Except Exc CommandResult
  runCode : String → String → Except Exc CodeRunResult
  readFile : String → Except Exc FileOpResult
  writeFile : String → String → Except Exc FileOpResult
  listDirectory : String → Except Exc FileOpResult
  createDirectory : String → Except Exc FileOpResult
  moveFile : String → String → Except Exc FileOpResult
  deleteFile : String → Except Exc FileOpResult
  generic : String → Option (Args → Except Exc Value)

/-- `result.error if hasattr(result, "error") else None` and friends. -/
def optStr : Option String → Value
  | some s => Value.str s
  | none => Value.null

def optFiles : Option (List String) → Value
  | some l => Value.str (String.intercalate "," l)
  | none => Value.null

/-- `AgentbayLinuxSandbox._execute_command` (agentbay_linux_sandbox.py
lines 66-82). -/
def linuxExecuteCommand (sess : LinuxSession) (args : Args) :
    Except Exc ResultDict := do
  let command := argsGet args "command" ""
  let result ← sess.executeCommand command
  pure [("success", Value.bool result.success),
        ("output", Value.str result.output),
        ("error", optStr result.error),
        ("exit_code", Value.int (result.exit_code.getD 0))]

/-- `AgentbayLinuxSandbox._execute_code`. -/
def linuxExecuteCode (sess : LinuxSession) (args : Args) :
    Except Exc ResultDict := do
  let code := argsGet args "code" ""
  let result ← sess.runCode code "python"
  pure [("success", Value.bool result.success),
        ("output", Value.str result.result),
        ("error", optStr result.error)]

/-- `AgentbayLinuxSandbox._read_file`. -/
def linuxReadFile (sess : LinuxSession) (args : Args) :
    Except Exc ResultDict := do
  let path := argsGet args "path" ""
  let result ← sess.readFile path
  pure [("success", Value.bool result.success),
        ("content", optStr result.content),
        ("error", optStr result.error)]

/-- `AgentbayLinuxSandbox._write_file`. -/
def linuxWriteFile (sess : LinuxSession) (args : Args) :
    Except Exc ResultDict := do
  let path := argsGet args "path" ""
  let content := argsGet args "content" ""
  let result ← sess.writeFile path content
  pure [("success", Value.bool result.success),
        ("error", optStr result.error)]

/-- `AgentbayLinuxSandbox._list_directory`. -/
def linuxListDirectory (sess : LinuxSession) (args : Args) :
    Except Exc ResultDict := do
  let path := argsGet args "path" "."
  let result ← sess.listDirectory path
  pure [("success", Value.bool result.success),
        ("files", optFiles result.files),
        ("error", optStr result.error)]

/-- `AgentbayLinuxSandbox._create_directory`. -/
def linuxCreateDirectory (sess : LinuxSession) (args : Args) :
    Except Exc ResultDict := do
  let path := argsGet args "path" ""
  let result ← sess.createDirectory path
  pure [("success", Value.bool result.success),
        ("error", optStr result.error)]

/-- `AgentbayLinuxSandbox._move_file`. -/
def linuxMoveFile (sess : LinuxSession) (args : Args) :
    Except Exc ResultDict := do
  let source := argsGet args "source" ""
  let destination := argsGet args "destination" ""
  let result ← sess.moveFile source destination
  pure [("success", Value.bool result.success),
        ("error", optStr result.error)]

/-- `AgentbayLinuxSandbox._delete_file`. -/
def linuxDeleteFile (sess : LinuxSession) (args : Args) :
    Except Exc ResultDict := do
  let path := argsGet args "path" ""
  let result ← sess.deleteFile path
  pure [("success", Value.bool result.success),
        ("error", optStr result.error)]

/-- `AgentbayLinuxSandbox._get_tool_mapping` (agentbay_linux_sandbox.py
lines 53-64). -/
def linuxToolMapping (tool : String) :
    Option (LinuxSession → Args → Except Exc ResultDict) :=
  match tool with
  | "run_shell_command" => some linuxExecuteCommand
  | "run_ipython_cell" => some linuxExecuteCode
  | "read_file" => some linuxReadFile
  | "write_file" => some linuxWriteFile
  | "list_directory" => some linuxListDirectory
  | "create_directory" => some linuxCreateDirectory
  | "move_file" => some linuxMoveFile
  | "delete_file" => some linuxDeleteFile
  | _ => none

/-- The `except (RuntimeError, ValueError, AttributeError, TypeError)`
class list shared by `_call_cloud_tool` and `_generic_tool_call`
(agentbay_sandbox_base.py lines 233 and 280). -/
def cloudCaught : List ExcKind :=
  [ExcKind.runtimeError, ExcKind.valueError, ExcKind.attributeError,
   ExcKind.typeError]

/-- The error dictionary produced by `_call_cloud_tool`'s `except`
clause (agentbay_sandbox_base.py lines 235-240). -/
def cloudToolErrorDict (e : Exc) (tool : String) (args : Args) : ResultDict :=
  [("success", Value.bool false),
   ("error", Value.str e.msg),
   ("tool_name", Value.str tool),
   ("arguments", Value.strMap args)]

/-- `AgentbaySandboxBase._generic_tool_call` (agentbay_sandbox_base.py
lines 256-284): `hasattr` probe, dynamic call, own `except` clause. -/
def genericToolCall (sess : LinuxSession) (tool : String) (args : Args) :
    Except Exc ResultDict :=
  match sess.generic tool with
  | some f =>
    match f args with
    | .ok v => .ok [("success", Value.bool true), ("result", v)]
    | .error e =>
        if e.kind ∈ cloudCaught then
          .ok [("success", Value.bool false),
               ("error", Value.str ("Error calling tool '" ++ tool ++ "': " ++ e.msg))]
        else .error e
  | none =>
      .ok [("success", Value.bool false),
           ("error", Value.str ("Tool '" ++ tool ++ "' not found in AgentBay session"))]

/-- `AgentbaySandboxBase._call_cloud_tool` (agentbay_sandbox_base.py
lines 201-240) specialised to the linux tool mapping.  `client` is the
result of `self.cloud_client.get(self._sandbox_id)`: `none` models
`not get_result.success`, which raises a `RuntimeError` that the
function's own `except` clause converts to an error dictionary. -/
def callCloudToolLinux (client : Option LinuxSession) (sandboxId : String)
    (tool : String) (args : Args) : Except Exc ResultDict :=
  match client with
  | none =>
      .ok (cloudToolErrorDict
            { kind := ExcKind.runtimeError,
              msg := "Sandbox " ++ sandboxId ++ " not found" } tool args)
  | some sess =>
    let body :=
      match linuxToolMapping tool with
      | some handler => handler sess args
      | none => genericToolCall sess tool args
    match body with
    | .ok d => .ok d
    | .error e =>
        if e.kind ∈ cloudCaught then .ok (cloudToolErrorDict e tool args)
        else .error e

/-! ## AGB handle (`custom/agb_sandbox.py`)

Each tool method of `AgbSandbox` wraps its vendor call in a bare
`except Exception`, so the methods are total dictionary producers; only
the `call_tool` dispatcher itself can raise (its `else` branch).
Timeout parameters are forwarded to the vendor opaquely and are elided
from the session model. -/

/-- Result object of `session.code.run_code` in the AGB SDK. -/
structure AgbRunResult where
  success : Bool
  result : String
  error_message : String
  deriving DecidableEq, Repr

/-- Result object of `session.command.execute_command` in the AGB SDK;
`request_id` is probed with `getattr(..., None)`. -/
structure AgbCmdResult where
  success : Bool
  output : String
  error_message : String
  request_id : Option String
  deriving DecidableEq, Repr

/-- Result object of the `session.file_system.*` calls in the AGB SDK. -/
structure AgbFileResult where
  success : Bool
  content : String
  entries : List String
  error_message : String
  deriving DecidableEq, Repr

/-- The AGB session object as used by the `AgbSandbox` tool methods. -/
structure AgbSession where
  runCode : String → String → Except Exc AgbRunResult
  executeCommand : String → Except Exc AgbCmdResult
  readFile : String → Except Exc AgbFileResult
  writeFile : String → String → Except Exc AgbFileResult
  listDirectory : String → Except Exc AgbFileResult
  createDirectory : String → Except Exc AgbFileResult
  browserInitialize : Except Exc Bool
  browserEndpointUrl : String

/-- The `AgbSandbox` state visible to its tool methods.
`getSessionResult` is what `get_agb_session()` yields: the existing
session, or the one produced by its on-demand `_create_agb_session()`
(`none` when neither is available — creation is entirely vendor-side).
`sessionInfoImage` is `self._agb_session_info.image_id` and
`browserCreateOutcome` is the session produced when
`initialize_browser` has to create a browser-image session. -/
structure AgbState where
  getSessionResult : Option AgbSession
  sessionInfoImage : Option String
  browserCreateOutcome : Option AgbSession

/-- `{"success": False, "error": "AGB session not available"}`. -/
def agbNoSession : ResultDict :=
  [("success", Value.bool false), ("error", Value.str "AGB session not available")]

/-- `x if cond else None` for strings. -/
def strIf (cond : Bool) (s : String) : Value :=
  if cond then Value.str s else Value.null

/-- `AgbSandbox.execute_code`. -/
def agbExecuteCode (st : AgbState) (code language : String) : ResultDict :=
  match st.getSessionResult with
  | none => agbNoSession
  | some sess =>
    match sess.runCode code language with
    | .ok r =>
        [("success", Value.bool r.success),
         ("output", strIf r.success r.result),
         ("error", strIf (¬ r.success) r.error_message),
         ("language", Value.str language)]
    | .error e => [("success", Value.bool false), ("error", Value.str e.msg)]

/-- `AgbSandbox.execute_command`. -/
def agbExecuteCommand (st : AgbState) (command : String) : ResultDict :=
  match st.getSessionResult with
  | none => agbNoSession
  | some sess =>
    match sess.executeCommand command with
    | .ok r =>
        [("success", Value.bool r.success),
         ("output", strIf r.success r.output),
         ("error", strIf (¬ r.success) r.error_message),
         ("request_id", optStr r.request_id)]
    | .error e => [("success", Value.bool false), ("error", Value.str e.msg)]

/-- `AgbSandbox.read_file`. -/
def agbReadFile (st : AgbState) (filepath : String) : ResultDict :=
  match st.getSessionResult with
  | none => agbNoSession
  | some sess =>
    match sess.readFile filepath with
    | .ok r =>
        [("success", Value.bool r.success),
         ("content", strIf r.success r.content),
         ("error", strIf (¬ r.success) r.error_message)]
    | .error e => [("success", Value.bool false), ("error", Value.str e.msg)]

/-- `AgbSandbox.write_file`. -/
def agbWriteFile (st : AgbState) (filepath content : String) : ResultDict :=
  match st.getSessionResult with
  | none => agbNoSession
  | some sess =>
    match sess.writeFile filepath content with
    | .ok r =>
        [("success", Value.bool r.success),
         ("error", strIf (¬ r.success) r.error_message)]
    | .error e => [("success", Value.bool false), ("error", Value.str e.msg)]

/-- `AgbSandbox.list_directory`. -/
def agbListDirectory (st : AgbState) (directory : String) : ResultDict :=
  match st.getSessionResult with
  | none => agbNoSession
  | some sess =>
    match sess.listDirectory directory with
    | .ok r =>
        [("success", Value.bool r.success),
         ("entries", strIf r.success (String.intercalate "," r.entries)),
         ("error", strIf (¬ r.success) r.error_message)]
    | .error e => [("success", Value.bool false), ("error", Value.str e.msg)]

/-- `AgbSandbox.create_directory`. -/
def agbCreateDirectory (st : AgbState) (directory : String) : ResultDict :=
  match st.getSessionResult with
  | none => agbNoSession
  | some sess =>
    match sess.createDirectory directory with
    | .ok r =>
        [("success", Value.bool r.success),
         ("error", strIf (¬ r.success) r.error_message)]
    | .error e => [("success", Value.bool false), ("error", Value.str e.msg)]

/-- `AgbSandbox.initialize_browser`: possibly replace the current
session by a browser-image one, then `session.browser.initialize`
inside a bare `except Exception`. -/
def agbInitializeBrowser (st : AgbState) (imageId : Option String) : ResultDict :=
  let browserImage := imageId.getD "agb-browser-use-1"
  -- if the current session's image differs, the session is deleted and a
  -- fresh browser-image session must be created
  let sessionAfter : Option AgbSession :=
    match st.sessionInfoImage with
    | some img => if img ≠ browserImage then st.browserCreateOutcome
                  else st.getSessionResult
    | none => match st.getSessionResult with
              | some sess => some sess
              | none => st.browserCreateOutcome
  match sessionAfter with
  | none => [("success", Value.bool false),
             ("error", Value.str "Failed to create browser session")]
  | some sess =>
    match sess.browserInitialize with
    | .ok true =>
        [("success", Value.bool true),
         ("endpoint_url", Value.str sess.browserEndpointUrl),
         ("message", Value.str "Browser initialized successfully")]
    | .ok false =>
        [("success", Value.bool false),
         ("error", Value.str "Failed to initialize browser")]
    | .error e => [("success", Value.bool false), ("error", Value.str e.msg)]

/-- The tool names `AgbSandbox.call_tool` dispatches on
(agb_sandbox.py lines 308-343). -/
def agbToolNames : List String :=
  ["agb_execute_code", "agb_execute_command", "agb_read_file",
   "agb_write_file", "agb_list_directory", "agb_create_directory",
   "agb_initialize_browser"]

/-- `AgbSandbox.call_tool` (agb_sandbox.py lines 308-343): dispatch by
tool name; an unknown name raises
`NotImplementedError(f"Tool '{name}' not implemented")`. -/
def agbCallTool (st : AgbState) (name : String) (args : Args) :
    Except Exc ResultDict :=
  match name with
  | "agb_execute_code" =>
      .ok (agbExecuteCode st (argsGet args "code" "")
            (argsGet args "language" "python"))
  | "agb_execute_command" =>
      .ok (agbExecuteCommand st (argsGet args "command" ""))
  | "agb_read_file" =>
      .ok (agbReadFile st (argsGet args "filepath" ""))
  | "agb_write_file" =>
      .ok (agbWriteFile st (argsGet args "filepath" "")
            (argsGet args "content" ""))
  | "agb_list_directory" =>
      .ok (agbListDirectory st (argsGet args "directory" ""))
  | "agb_create_directory" =>
      .ok (agbCreateDirectory st (argsGet args "directory" ""))
  | "agb_initialize_browser" =>
      .ok (agbInitializeBrowser st (args.lookup "image_id"))
  | _ =>
      .error { kind := ExcKind.notImplementedError,
               msg := "Tool '" ++ name ++ "' not implemented" }

/-! ## Cooperative concurrency model for `ensure_sandbox`

`ensure_sandbox` is an `async def` whose only `await` is
`await self._notify_sandbox_created(...)`, *after* the new handle has
been stored (multi_sandbox_manager.py line 219); the vendor constructor
call itself is synchronous.  On the asyncio event loop a coroutine runs
atomically between `await` points, so a task calling `ensure_sandbox`
executes the whole check/create/store block as one atomic segment and
can only be interleaved at the notify `await`.  Two concurrent callers
are modelled as two such tasks over shared manager/world state,
scheduled by an arbitrary boolean word. -/

/-- Progress of one `ensure_sandbox` task: before its first segment, at
the notify `await`, or finished. -/
inductive TaskPhase where
  | start
  | notify
  | done
  deriving DecidableEq, Repr

/-- A configuration of two concurrent `ensure_sandbox(k)` tasks: shared
manager state and vendor world, plus each task's phase, pending handle
(held across the notify suspension) and final result. -/
structure Config where
  st : ManagerState
  w : World
  phaseA : TaskPhase
  phaseB : TaskPhase
  pendA : Option Handle
  pendB : Option Handle
  retA : Option (Except Exc (Option Handle))
  retB : Option (Except Exc (Option Handle))

/-- Run one atomic segment of an `ensure_sandbox(k)` task over the
shared state.  The first segment is exactly `ensureSandbox` up to the
`await`: if it created and stored a fresh handle (the slot was empty
before and a handle came back) the task suspends at the notify point,
otherwise it returned before ever reaching the `await` and is done.
The notify segment touches no shared state (`_notify_sandbox_created`
catches every exception its callback raises) and returns the stored
handle. -/
def taskStep (k : String) (o : CreateOutcome) (st : ManagerState)
    (w : World) (ph : TaskPhase) (pend : Option Handle)
    (ret : Option (Except Exc (Option Handle))) :
    ManagerState × World × TaskPhase × Option Handle ×
      Option (Except Exc (Option Handle)) :=
  match ph with
  | .start =>
    let r := ensureSandbox st w k o
    match getSlot st k, r.1 with
    | none, .ok (some h) => (r.2.1, r.2.2, .notify, some h, ret)
    | _, _ => (r.2.1, r.2.2, .done, pend, some r.1)
  | .notify => (st, w, .done, pend, some (.ok pend))
  | .done => (st, w, .done, pend, ret)

/-- Run one atomic segment of task A. -/
def stepA (k : String) (o : CreateOutcome) (cfg : Config) : Config :=
  let r := taskStep k o cfg.st cfg.w cfg.phaseA cfg.pendA cfg.retA
  { cfg with st := r.1, w := r.2.1, phaseA := r.2.2.1,
             pendA := r.2.2.2.1, retA := r.2.2.2.2 }

/-- Run one atomic segment of task B (the same program as task A). -/
def stepB (k : String) (o : CreateOutcome) (cfg : Config) : Config :=
  let r := taskStep k o cfg.st cfg.w cfg.phaseB cfg.pendB cfg.retB
  { cfg with st := r.1, w := r.2.1, phaseB := r.2.2.1,
             pendB := r.2.2.2.1, retB := r.2.2.2.2 }

/-- One scheduler step: `true` runs task A's next segment, `false` runs
task B's. -/
def step (k : String) (oA oB : CreateOutcome) (cfg : Config) (who : Bool) :
    Config :=
  if who then stepA k oA cfg else stepB k oB cfg

/-- Run a whole schedule. -/
def runSched (k : String) (oA oB : CreateOutcome) :
    List Bool → Config → Config
  | [], cfg => cfg
  | who :: rest, cfg => runSched k oA oB rest (step k oA oB cfg who)

/-- Both tasks poised to run against a fresh manager and vendor. -/
def initConfig : Config :=
  { st := initialManagerState, w := initialWorld,
    phaseA := .start, phaseB := .start,
    pendA := none, pendB := none, retA := none, retB := none }

/-! ## Concrete vendor models used in scenario theorems -/

/-- Strip a literal prefix from a character list. -/
def dropPrefixChars : List Char → List Char → Option (List Char)
  | [], cs => some cs
  | _ :: _, [] => none
  | p :: ps, c :: cs => if p = c then dropPrefixChars ps cs else none

/-- `echo`-like shell semantics for the vendor mock: executing
`echo hi` yields `hi\n`. -/
def echoOutput (cmd : String) : String :=
  match dropPrefixChars "echo ".data cmd.data with
  | some rest => String.mk (rest ++ ['\n'])
  | none => ""

/-- A vendor session mock whose command execution echoes its input with
success and exit code 0 (the other entry points succeed trivially). -/
def echoSession : LinuxSession :=
  { executeCommand := fun cmd =>
      .ok { success := true, output := echoOutput cmd, error := none,
            exit_code := some 0 }
    runCode := fun _ _ => .ok { success := true, result := "", error := none }
    readFile := fun _ =>
      .ok { success := true, content := some "", files := none, error := none }
    writeFile := fun _ _ =>
      .ok { success := true, content := none, files := none, error := none }
    listDirectory := fun _ =>
      .ok { success := true, content := none, files := some [], error := none }
    createDirectory := fun _ =>
      .ok { success := true, content := none, files := none, error := none }
    moveFile := fun _ _ =>
      .ok { success := true, content := none, files := none, error := none }
    deleteFile := fun _ =>
      .ok { success := true, content := none, files := none, error := none }
    generic := fun _ => none }

/-- A vendor session whose command execution raises
`RuntimeError("boom")`. -/
def failingLinuxSession : LinuxSession :=
  { echoSession with
      executeCommand := fun _ =>
        .error { kind := ExcKind.runtimeError, msg := "boom" } }

/-- An `AgbSandbox` state with no live vendor session. -/
def agbEmptyState : AgbState :=
  { getSessionResult := none, sessionInfoImage := none,
    browserCreateOutcome := none }

/-- A tools map with a colliding wrapper name: the `linux` entry lists
`read_file` twice, so the second registration of `linux_read_file` is a
name collision. -/
def collisionTables : List (String × ToolsInfo) :=
  [("linux", { tools := ["read_file", "read_file"], error := none,
               status := none, sandboxId := none, totalCount := 2 })]

/-- Every wrapper name produced from the static capability tables, in
registration order. -/
def allWrapperNames : List String :=
  linuxTools.map (wrapperName "linux") ++
  windowsTools.map (wrapperName "windows") ++
  browserTools.map (wrapperName "browser") ++
  mobileTools.map (wrapperName "mobile")

/-- All four handle slots are empty. -/
def slotsEmpty (st : ManagerState) : Prop :=
  st.linuxSlot = none ∧ st.windowsSlot = none ∧
  st.browserSlot = none ∧ st.mobileSlot = none

/-- The kinds currently holding a live handle, in dict order. -/
def liveKinds (st : ManagerState) : List Kind :=
  allKinds.filter fun kd => (getSlotK st kd).isSome

/-- `get_all_tools` as a state-passing operation: the method reads
`self.sandboxes` and writes nothing, and its temporary instances are
made with `cls.__new__(cls)`, bypassing `__init__` and hence never
touching the vendor. -/
def getAllToolsOp (st : ManagerState) (w : World) :
    List (String × ToolsInfo) × ManagerState × World :=
  (getAllTools st, st, w)

/-- The entry `get_all_tools` produces for one kind (the body of its
per-kind loop). -/
def toolsEntry (st : ManagerState) (kd : Kind) : ToolsInfo :=
  match getSlotK st kd with
  | some h =>
      { tools := listToolsOfKind h.kind, error := none, status := none,
        sandboxId := some h.sid, totalCount := (listToolsOfKind h.kind).length }
  | none =>
      { tools := listToolsOfKind kd, error := none, status := none,
        sandboxId := none, totalCount := (listToolsOfKind kd).length }

/-! # Theorems -/

/-- The generic-dispatch surface of a session raises only exception
classes that `_generic_tool_call` / `_call_cloud_tool` catch. -/
def genericOnlyCaught (sess : LinuxSession) : Prop :=
  ∀ (t : String) (f : Args → Except Exc Value) (a : Args) (e : Exc),
    sess.generic t = some f → f a = .error e → e.kind ∈ cloudCaught

/-- C1, counterexample.  The claim says no exception crosses the handle
boundary for any tool name, "including tool names the handle does not
implement"; but `AgbSandbox.call_tool` raises
`NotImplementedError(f"Tool '{name}' not implemented")` for an unknown
tool name, so the exception does cross the handle boundary. -/
theorem c1_agb_unknown_tool_raises :
    agbCallTool agbEmptyState "browser_navigate" [] =
      .error { kind := ExcKind.notImplementedError,
               msg := "Tool 'browser_navigate' not implemented" } := by
  rfl

/-- C1, amended.  Exception containment at the handle boundary holds in
the following form: (i) in the AgentBay base `_call_cloud_tool`, a
vendor exception of a caught class (RuntimeError, ValueError,
AttributeError, TypeError) raised by the mapped tool handler is turned
into `{success: false, error: <exception text>}` and not propagated;
(ii) a tool name outside the mapping goes through `_generic_tool_call`
and, provided the dynamic surface also raises only caught classes,
yields a result dictionary rather than an exception; (iii) in
`AgbSandbox`, every *implemented* tool name returns a result dictionary
for every session behaviour — only unimplemented names raise. -/
theorem c1_amended_exception_containment :
    (∀ (sess : LinuxSession) (sid tool : String) (args : Args)
       (handler : LinuxSession → Args → Except Exc ResultDict) (e : Exc),
       linuxToolMapping tool = some handler → handler sess args = .error e →
       e.kind ∈ cloudCaught → e.msg ≠ "" →
       callCloudToolLinux (some sess) sid tool args =
         .ok (cloudToolErrorDict e tool args) ∧
       (cloudToolErrorDict e tool args).lookup "success" =
         some (Value.bool false) ∧
       (cloudToolErrorDict e tool args).lookup "error" =
         some (Value.str e.msg)) ∧
    (∀ (sess : LinuxSession) (sid tool : String) (args : Args),
       linuxToolMapping tool = none → genericOnlyCaught sess →
       ∃ d, callCloudToolLinux (some sess) sid tool args = .ok d) ∧
    (∀ (st : AgbState) (name : String) (args : Args),
       name ∈ agbToolNames → ∃ d, agbCallTool st name args = .ok d) := by
  refine ⟨?_, ?_, ?_⟩
  · intro sess sid tool args handler e hmap herr hkind _
    refine ⟨?_, rfl, rfl⟩
    simp only [callCloudToolLinux, hmap, herr, if_pos hkind]
  · intro sess sid tool args hmap hgen
    simp only [callCloudToolLinux, hmap, genericToolCall]
    cases hg : sess.generic tool with
    | none => exact ⟨_, rfl⟩
    | some f =>
      cases hf : f args with
      | ok v =>
        exact ⟨[("success", Value.bool true), ("result", v)],
               by simp only [hf]⟩
      | error e =>
        exact ⟨[("success", Value.bool false),
                ("error", Value.str ("Error calling tool '" ++ tool ++ "': " ++ e.msg))],
               by simp only [hf, if_pos (hgen tool f args e hg hf)]⟩
  · intro st name args hname
    fin_cases hname <;> exact ⟨_, rfl⟩

/-- Witness for the amended C1: `run_shell_command` on a session whose
vendor call raises `RuntimeError("boom")` yields the error dictionary,
and every implemented AGB tool name returns a dictionary. -/
theorem c1_amended_witness :
    callCloudToolLinux (some failingLinuxSession) "sid-1" "run_shell_command"
        [("command", "ls")] =
      .ok (cloudToolErrorDict { kind := ExcKind.runtimeError, msg := "boom" }
            "run_shell_command" [("command", "ls")]) ∧
    (∃ d, callCloudToolLinux (some echoSession) "sid-1" "no_such_tool" [] = .ok d) ∧
    (∃ d, agbCallTool agbEmptyState "agb_execute_command" [] = .ok d) :=
  ⟨(c1_amended_exception_containment.1 failingLinuxSession "sid-1"
      "run_shell_command" [("command", "ls")] linuxExecuteCommand
      { kind := ExcKind.runtimeError, msg := "boom" }
      rfl rfl (by decide) (by decide)).1,
   c1_amended_exception_containment.2.1 echoSession "sid-1" "no_such_tool" []
     rfl (by intro t f a e hg _; simp [echoSession] at hg),
   c1_amended_exception_containment.2.2 agbEmptyState "agb_execute_command" []
     (by decide)⟩

/-- C2: if a handle for kind `k` is already stored, a second
`ensure_sandbox(k)` returns that very handle, leaves the manager's state
untouched and creates no vendor session. -/
theorem c2_ensure_idempotent
    (st : ManagerState) (w : World) (k : String) (h : Handle)
    (outcome : CreateOutcome) (hslot : getSlot st k = some h) :
    ensureSandbox st w k outcome = (.ok (some h), st, w) := by
  simp only [ensureSandbox, hslot]

/-- Witness for C2: a manager that already holds a linux handle returns
it unchanged. -/
theorem c2_ensure_idempotent_witness :
    ensureSandbox
        { initialManagerState with
            linuxSlot := some { sid := "sid-1", kind := Kind.linux, seq := 0 } }
        initialWorld "linux" (.ok "sid-2") =
      (.ok (some { sid := "sid-1", kind := Kind.linux, seq := 0 }),
       { initialManagerState with
           linuxSlot := some { sid := "sid-1", kind := Kind.linux, seq := 0 } },
       initialWorld) :=
  c2_ensure_idempotent _ _ "linux" _ _ rfl

/-- C3: when the slot for `k` is empty and creation fails — unknown
kind, constructor raising a caught class, constructor completing
without a session id, or a falsy (empty) session id — `ensure_sandbox`
returns `None` and the manager's state is unchanged, so the slot stays
empty and a later call may retry. -/
theorem c3_failed_creation_leaves_state
    (st : ManagerState) (w : World) (k : String) (outcome : CreateOutcome)
    (hslot : getSlot st k = none)
    (hfail : parseKind k = none ∨ outcome = .noId ∨ outcome = .ok "" ∨
             ∃ e, outcome = .raised e ∧ e.kind ∈ ensureCaught) :
    ∃ w', ensureSandbox st w k outcome = (.ok none, st, w') := by
  rcases hfail with hk | ho | ho | ⟨e, ho, he⟩
  · exact ⟨w, by simp only [ensureSandbox, hslot, hk]⟩
  · subst ho
    cases hk : parseKind k
    · exact ⟨w, by simp only [ensureSandbox, hslot, hk]⟩
    · exact ⟨w, by simp only [ensureSandbox, hslot, hk]⟩
  · subst ho
    cases hk : parseKind k
    · exact ⟨w, by simp only [ensureSandbox, hslot, hk]⟩
    · exact ⟨{ sessionsCreated := w.sessionsCreated + 1 },
        by simp only [ensureSandbox, hslot, hk]; rfl⟩
  · subst ho
    cases hk : parseKind k
    · exact ⟨w, by simp only [ensureSandbox, hslot, hk]⟩
    · exact ⟨w, by simp only [ensureSandbox, hslot, hk, if_pos he]⟩

/-- Witness for C3: a failed vendor creation (`RuntimeError`) against a
fresh manager returns `None` with the state unchanged. -/
theorem c3_failed_creation_leaves_state_witness :
    ∃ w', ensureSandbox initialManagerState initialWorld "linux"
        (.raised { kind := ExcKind.runtimeError, msg := "quota exceeded" }) =
      (.ok none, initialManagerState, w') :=
  c3_failed_creation_leaves_state initialManagerState initialWorld "linux" _
    rfl (Or.inr (Or.inr (Or.inr ⟨_, rfl, by decide⟩)))

/-- The per-handle cleanup loop succeeds and visits exactly the occupied
slots, as long as every per-handle failure is of a caught class. -/
lemma cleanupLoop_ok (st : ManagerState) (fail : Kind → Option Exc)
    (hfail : ∀ kd e, fail kd = some e → e.kind ∈ cleanupCaught) :
    ∀ ks : List Kind,
      cleanupLoop st fail ks = .ok (ks.filter fun kd => (getSlotK st kd).isSome)
  | [] => rfl
  | kd :: rest => by
    have ih := cleanupLoop_ok st fail hfail rest
    cases hslot : getSlotK st kd with
    | none => simp [cleanupLoop, hslot, ih, List.filter_cons, Except.map]
    | some h =>
      cases hf : fail kd with
      | none =>
        simp [cleanupLoop, hslot, hf, ih, List.filter_cons, Except.map]
      | some e =>
        simp [cleanupLoop, hslot, hf, if_pos (hfail kd e hf), ih,
              List.filter_cons, Except.map]

/-- C4: `cleanup_all_sandboxes` tears down every live handle (tolerating
per-handle failures of the caught classes, which is all the handles'
`cleanup` implementations raise), never raises, leaves zero live
handles, and a second call is a no-op touching no handle. -/
theorem c4_cleanup_all (st : ManagerState) (fail : Kind → Option Exc)
    (hfail : ∀ kd e, fail kd = some e → e.kind ∈ cleanupCaught) :
    ∃ st₁, cleanupAllSandboxes st fail = .ok (st₁, liveKinds st) ∧
      slotsEmpty st₁ ∧ st₁.idToType = st.idToType ∧
      ∀ fail' : Kind → Option Exc,
        cleanupAllSandboxes st₁ fail' = .ok (st₁, []) := by
  refine ⟨{ linuxSlot := none, windowsSlot := none, browserSlot := none,
            mobileSlot := none, idToType := st.idToType }, ?_, ?_, rfl, ?_⟩
  · simp only [cleanupAllSandboxes, cleanupLoop_ok st fail hfail allKinds]
    rfl
  · exact ⟨rfl, rfl, rfl, rfl⟩
  · intro fail'
    rfl

/-- Witness for C4: a manager holding linux and browser handles, where
the linux cleanup raises `RuntimeError`, still ends with all slots empty
and the second call a no-op. -/
theorem c4_cleanup_all_witness :
    ∃ st₁,
      cleanupAllSandboxes
          { linuxSlot := some { sid := "sid-1", kind := Kind.linux, seq := 0 },
            windowsSlot := none,
            browserSlot := some { sid := "sid-2", kind := Kind.browser, seq := 1 },
            mobileSlot := none,
            idToType := [("sid-1", "linux"), ("sid-2", "browser")] }
          (fun kd => if kd = Kind.linux then
              some { kind := ExcKind.runtimeError, msg := "cleanup failed" }
            else none) =
        .ok (st₁,
          liveKinds
            { linuxSlot := some { sid := "sid-1", kind := Kind.linux, seq := 0 },
              windowsSlot := none,
              browserSlot := some { sid := "sid-2", kind := Kind.browser, seq := 1 },
              mobileSlot := none,
              idToType := [("sid-1", "linux"), ("sid-2", "browser")] }) ∧
      slotsEmpty st₁ ∧
      st₁.idToType = [("sid-1", "linux"), ("sid-2", "browser")] ∧
      ∀ fail' : Kind → Option Exc,
        cleanupAllSandboxes st₁ fail' = .ok (st₁, []) :=
  c4_cleanup_all _ _ (by
    intro kd e h
    cases kd
    · rw [if_pos rfl] at h
      cases h
      decide
    · rw [if_neg (by decide)] at h
      cases h
    · rw [if_neg (by decide)] at h
      cases h
    · rw [if_neg (by decide)] at h
      cases h)

/-- Looking up a kind in the tools map yields exactly its loop entry. -/
lemma getAllTools_lookup (st : ManagerState) (kd : Kind) :
    (getAllTools st).lookup kd.toName = some (toolsEntry st kd) := by
  cases kd <;> rfl

/-- Each kind's entry comes from one of the hard-coded tables, all of
which are non-empty. -/
lemma listToolsOfKind_ne_nil (kd : Kind) : listToolsOfKind kd ≠ [] := by
  cases kd <;> decide

lemma toolsEntry_nonempty (st : ManagerState) (kd : Kind) :
    (toolsEntry st kd).tools ≠ [] := by
  unfold toolsEntry
  cases getSlotK st kd with
  | none => exact listToolsOfKind_ne_nil kd
  | some h => exact listToolsOfKind_ne_nil h.kind

/-- C6: `get_all_tools` is side-effect free — it returns the manager
state and the vendor world exactly as given (the uninitialized-kind path
goes through `cls.__new__(cls)`, never the vendor) — and every kind's
entry carries a non-empty tool list, whether or not its handle exists. -/
theorem c6_get_all_tools_pure_nonempty (st : ManagerState) (w : World) :
    (getAllToolsOp st w).2.1 = st ∧ (getAllToolsOp st w).2.2 = w ∧
    ∀ kd : Kind,
      ((getAllToolsOp st w).1).lookup kd.toName = some (toolsEntry st kd) ∧
      (toolsEntry st kd).tools ≠ [] :=
  ⟨rfl, rfl, fun kd => ⟨getAllTools_lookup st kd, toolsEntry_nonempty st kd⟩⟩

/-- C8: against a vendor mock whose command execution echoes its input,
`ensure_sandbox("linux")` hands back a handle for the created session
and a `run_shell_command` call with `{"command": "echo hi"}` through
`_call_cloud_tool` reports `success=true`, `output="hi\n"` and
`exit_code=0`. -/
theorem c8_echo_scenario :
    ensureSandbox initialManagerState initialWorld "linux" (.ok "sid-1") =
      (.ok (some { sid := "sid-1", kind := Kind.linux, seq := 0 }),
       { linuxSlot := some { sid := "sid-1", kind := Kind.linux, seq := 0 },
         windowsSlot := none, browserSlot := none, mobileSlot := none,
         idToType := [("sid-1", "linux")] },
       { sessionsCreated := 1 }) ∧
    ∃ d : ResultDict,
      callCloudToolLinux (some echoSession) "sid-1" "run_shell_command"
          [("command", "echo hi")] = .ok d ∧
      d.lookup "success" = some (Value.bool true) ∧
      d.lookup "output" = some (Value.str "hi\n") ∧
      d.lookup "exit_code" = some (Value.int 0) := by
  refine ⟨by decide, ⟨[("success", Value.bool true),
    ("output", Value.str "hi\n"), ("error", Value.null),
    ("exit_code", Value.int 0)], by decide, by decide, by decide, by decide⟩⟩

/-- C10: `cleanup_all_sandboxes` resets the handle slots but retains
`sandbox_id_to_type`; after ensure → cleanup → ensure, looking up the
*old* sandbox id returns the *new* handle (not `None`), through the
stale id-to-kind entry. -/
theorem c10_stale_id_returns_new_handle :
    ∃ (h₁ h₂ : Handle) (st₁ st₂ st₃ : ManagerState) (w₁ w₃ : World),
      ensureSandbox initialManagerState initialWorld "linux" (.ok "sid-1") =
        (.ok (some h₁), st₁, w₁) ∧
      cleanupAllSandboxes st₁ (fun _ => none) = .ok (st₂, [Kind.linux]) ∧
      st₂.idToType = st₁.idToType ∧
      ensureSandbox st₂ w₁ "linux" (.ok "sid-2") = (.ok (some h₂), st₃, w₃) ∧
      h₂ ≠ h₁ ∧ h₂.sid = "sid-2" ∧
      getSandboxById st₃ "sid-1" = some h₂ := by
  refine ⟨{ sid := "sid-1", kind := Kind.linux, seq := 0 },
          { sid := "sid-2", kind := Kind.linux, seq := 1 },
          _, _, _, _, _, rfl, rfl, rfl, rfl, by decide, rfl, rfl⟩

/-! ### C5: wrapper-name uniqueness and collision handling -/

/-- The inner registration loop never lets an exception escape: the only
exception `toolkitRegister` raises is a `ValueError`, which is in the
caught class list, so the loop logs and continues. -/
lemma registerTools_total (k : String) :
    ∀ (ts tk reg : List String), ∃ r, registerTools k tk reg ts = .ok r
  | [], tk, reg => ⟨(tk, reg), rfl⟩
  | t :: rest, tk, reg => by
    unfold registerTools toolkitRegister
    by_cases hmem : wrapperName k t ∈ tk
    · rw [if_pos hmem]
      show ∃ r, (if ExcKind.valueError ∈ registryCaught then
        registerTools k tk reg rest else _) = .ok r
      rw [if_pos (by decide : ExcKind.valueError ∈ registryCaught)]
      exact registerTools_total k rest tk reg
    · rw [if_neg hmem]
      exact registerTools_total k rest (tk ++ [wrapperName k t])
        (recordRegistered reg (wrapperName k t))

/-- `register_all_tools` never raises, whatever tools map it is given. -/
lemma registerAllTools_total :
    ∀ (tables : List (String × ToolsInfo)) (tk reg : List String),
      ∃ r, registerAllTools tk reg tables = .ok r
  | [], tk, reg => ⟨(tk, reg), rfl⟩
  | (k, info) :: rest, tk, reg => by
    unfold registerAllTools
    by_cases hskip : skipEntry info = true
    · rw [if_pos hskip]
      exact registerAllTools_total rest tk reg
    · rw [if_neg hskip]
      obtain ⟨⟨tk', reg'⟩, hr⟩ := registerTools_total k info.tools tk reg
      rw [hr]
      exact registerAllTools_total rest tk' reg'

/-- C5, counterexample.  The claim says a name collision "fails fast at
build time (registration raises immediately)".  It does not: with a
tools map in which `linux` lists `read_file` twice, the second
registration of `linux_read_file` collides, the toolkit's `ValueError`
is caught by the registration loop's `except` clause, and
`register_all_tools` returns normally with the name registered once. -/
theorem c5_collision_does_not_raise :
    registerAllTools [] [] collisionTables =
      .ok (["linux_read_file"], ["linux_read_file"]) := by
  decide

set_option maxRecDepth 8192 in
/-- C5, amended.  On the actual static capability tables (a fresh
manager), every wrapper name `{kind}_{tool}` appears exactly once in the
built toolkit; but a collision is not a fail-fast build error —
`register_all_tools` catches registration exceptions per tool, skips the
offender, and never raises, for any tools map. -/
theorem c5_amended_unique_names :
    registerAllTools [] [] (getAllTools initialManagerState) =
        .ok (allWrapperNames, allWrapperNames) ∧
    allWrapperNames.Nodup ∧
    (∀ (kd : Kind) (t : String), t ∈ listToolsOfKind kd →
       allWrapperNames.count (wrapperName kd.toName t) = 1) ∧
    (∀ (tables : List (String × ToolsInfo)) (tk reg : List String),
       ∃ r, registerAllTools tk reg tables = .ok r) := by
  refine ⟨by decide, by decide, ?_, registerAllTools_total⟩
  intro kd t ht
  refine List.count_eq_one_of_mem (by decide) ?_
  cases kd
  case linux =>
    exact List.mem_append_left _ (List.mem_append_left _
      (List.mem_append_left _ (List.mem_map_of_mem _ ht)))
  case windows =>
    exact List.mem_append_left _ (List.mem_append_left _
      (List.mem_append_right _ (List.mem_map_of_mem _ ht)))
  case browser =>
    exact List.mem_append_left _
      (List.mem_append_right _ (List.mem_map_of_mem _ ht))
  case mobile =>
    exact List.mem_append_right _ (List.mem_map_of_mem _ ht)

/-- Witness for the amended C5: `linux_read_file` occurs exactly once. -/
theorem c5_amended_unique_names_witness :
    allWrapperNames.count (wrapperName Kind.linux.toName "read_file") = 1 :=
  c5_amended_unique_names.2.2.1 Kind.linux "read_file" (by decide)

/-! ### C7: `create_sandbox` result shape -/

/-- As long as the vendor constructor raises only the exception classes
`ensure_sandbox` catches, `ensure_sandbox` itself never raises. -/
lemma ensure_no_uncaught (st : ManagerState) (w : World) (k : String)
    (outcome : CreateOutcome)
    (hok : ∀ e, outcome = .raised e → e.kind ∈ ensureCaught) :
    ∃ r st' w', ensureSandbox st w k outcome = (.ok r, st', w') := by
  cases hslot : getSlot st k with
  | some h => exact ⟨some h, st, w, by simp [ensureSandbox, hslot]⟩
  | none =>
    cases hk : parseKind k with
    | none => exact ⟨none, st, w, by simp [ensureSandbox, hslot, hk]⟩
    | some kd =>
      cases outcome with
      | noId => exact ⟨none, st, w, by simp [ensureSandbox, hslot, hk]⟩
      | raised e =>
        exact ⟨none, st, w,
               by simp [ensureSandbox, hslot, hk, hok e rfl]⟩
      | ok sid =>
        by_cases hsid : sid = ""
        · exact ⟨none, st, { sessionsCreated := w.sessionsCreated + 1 },
                 by simp [ensureSandbox, hslot, hk, hsid]⟩
        · exact ⟨some { sid := sid, kind := kd, seq := w.sessionsCreated },
                 { setSlotK st kd
                     (some { sid := sid, kind := kd, seq := w.sessionsCreated })
                   with idToType := dictInsert st.idToType sid k },
                 { sessionsCreated := w.sessionsCreated + 1 },
                 by simp [ensureSandbox, hslot, hk, hsid]⟩

/-- C7: provided the vendor constructor fails only in the ways the
service layer's callees catch (the classes listed in their `except`
clauses), `create_sandbox` always returns a result dictionary — either
`success=true` with the sandbox id, the kind and the image id, or
`success=false` with an error string — and never raises. -/
theorem c7_create_sandbox_shape (mgrPresent : Bool) (st : ManagerState)
    (w : World) (k : String) (outcome : CreateOutcome)
    (hok : ∀ e, outcome = .raised e → e.kind ∈ ensureCaught) :
    ∃ d st' w', createSandbox mgrPresent st w k outcome = (.ok d, st', w') ∧
      ((d.lookup "success" = some (Value.bool true) ∧
        (∃ s, s ≠ "" ∧ d.lookup "sandbox_id" = some (Value.str s)) ∧
        d.lookup "sandbox_type" = some (Value.str k) ∧
        (∃ s, d.lookup "image_id" = some (Value.str s))) ∨
       (d.lookup "success" = some (Value.bool false) ∧
        ∃ s, d.lookup "error" = some (Value.str s))) := by
  cases mgrPresent with
  | false =>
    exact ⟨_, st, w, rfl, Or.inr ⟨rfl, _, rfl⟩⟩
  | true =>
    cases hk : parseKind k with
    | none =>
      exact ⟨[("success", Value.bool false),
              ("error", Value.str ("Invalid sandbox type: " ++ k))], st, w,
             by simp [createSandbox, hk], Or.inr ⟨rfl, _, rfl⟩⟩
    | some kd =>
      obtain ⟨r, st', w', hr⟩ := ensure_no_uncaught st w k outcome hok
      cases r with
      | none =>
        exact ⟨[("success", Value.bool false),
                ("error", Value.str ("Failed to create sandbox " ++ k ++ "."))],
               st', w', by simp [createSandbox, hk, hr], Or.inr ⟨rfl, _, rfl⟩⟩
      | some h =>
        by_cases hsid : h.sid = ""
        · exact ⟨[("success", Value.bool false),
                  ("error",
                   Value.str "Sandbox created but no sandbox_id returned")],
                 st', w', by simp [createSandbox, hk, hr, hsid],
                 Or.inr ⟨rfl, _, rfl⟩⟩
        · exact ⟨[("success", Value.bool true),
                  ("sandbox_id", Value.str h.sid),
                  ("sandbox_type", Value.str k),
                  ("image_id", Value.str (IMAGE_IDS kd))],
                 st', w', by simp [createSandbox, hk, hr, hsid],
                 Or.inl ⟨rfl, ⟨h.sid, hsid, rfl⟩, rfl, _, rfl⟩⟩

/-- Witness for C7: creating a linux sandbox from a fresh service
succeeds with the full success dictionary. -/
theorem c7_create_sandbox_shape_witness :
    ∃ d st' w',
      createSandbox true initialManagerState initialWorld "linux"
          (.ok "sb-1") = (.ok d, st', w') ∧
      ((d.lookup "success" = some (Value.bool true) ∧
        (∃ s, s ≠ "" ∧ d.lookup "sandbox_id" = some (Value.str s)) ∧
        d.lookup "sandbox_type" = some (Value.str "linux") ∧
        (∃ s, d.lookup "image_id" = some (Value.str s))) ∨
       (d.lookup "success" = some (Value.bool false) ∧
        ∃ s, d.lookup "error" = some (Value.str s))) :=
  c7_create_sandbox_shape true initialManagerState initialWorld "linux"
    (.ok "sb-1") (fun _ h => CreateOutcome.noConfusion h)

/-! ### C9: concurrent `ensure_sandbox` on the cooperative event loop -/

/-- The session-count invariant of the two-caller model: at most one
vendor session exists, and none exists while the slot for `k` is still
empty. -/
def c9Inv (k : String) (cfg : Config) : Prop :=
  cfg.w.sessionsCreated ≤ 1 ∧
  (getSlot cfg.st k = none → cfg.w.sessionsCreated = 0)

/-- One `ensure_sandbox` run preserves the session-count invariant: it
creates a session only when the slot is empty, and then also fills the
slot in the same atomic segment. -/
lemma ensure_session_count (st : ManagerState) (w : World) (k : String)
    (o : CreateOutcome) (ho : o ≠ CreateOutcome.ok "")
    (h1 : w.sessionsCreated ≤ 1)
    (h2 : getSlot st k = none → w.sessionsCreated = 0) :
    (ensureSandbox st w k o).2.2.sessionsCreated ≤ 1 ∧
    (getSlot (ensureSandbox st w k o).2.1 k = none →
      (ensureSandbox st w k o).2.2.sessionsCreated = 0) := by
  cases hslot : getSlot st k with
  | some h =>
    simp only [ensureSandbox, hslot]
    exact ⟨h1, fun hn => Option.noConfusion hn⟩
  | none =>
    have h0 : w.sessionsCreated = 0 := h2 hslot
    cases hk : parseKind k with
    | none =>
      simp only [ensureSandbox, hslot, hk]
      exact ⟨h1, fun _ => h0⟩
    | some kd =>
      cases o with
      | noId =>
        simp only [ensureSandbox, hslot, hk]
        exact ⟨h1, fun _ => h0⟩
      | raised e =>
        by_cases hc : e.kind ∈ ensureCaught
        · simp only [ensureSandbox, hslot, hk, if_pos hc]
          exact ⟨h1, fun _ => h0⟩
        · simp only [ensureSandbox, hslot, hk, if_neg hc]
          exact ⟨h1, fun _ => h0⟩
      | ok sid =>
        have hsid : ¬ sid = "" := fun hh => ho (by rw [hh])
        simp only [ensureSandbox, hslot, hk, if_neg hsid]
        constructor
        · rw [h0]
        · intro hn
          cases kd <;> simp [getSlot, hk, getSlotK, setSlotK] at hn

/-- One atomic segment of either task preserves the session-count
invariant. -/
lemma taskStep_session_count (k : String) (o : CreateOutcome)
    (st : ManagerState) (w : World) (ph : TaskPhase) (pend : Option Handle)
    (ret : Option (Except Exc (Option Handle)))
    (ho : o ≠ CreateOutcome.ok "") (h1 : w.sessionsCreated ≤ 1)
    (h2 : getSlot st k = none → w.sessionsCreated = 0) :
    (taskStep k o st w ph pend ret).2.1.sessionsCreated ≤ 1 ∧
    (getSlot (taskStep k o st w ph pend ret).1 k = none →
      (taskStep k o st w ph pend ret).2.1.sessionsCreated = 0) := by
  cases ph with
  | notify => exact ⟨h1, h2⟩
  | done => exact ⟨h1, h2⟩
  | start =>
    have he := ensure_session_count st w k o ho h1 h2
    cases hg : getSlot st k with
    | some h =>
      simpa only [taskStep, hg] using he
    | none =>
      cases hr : (ensureSandbox st w k o).1 with
      | error e => simpa only [taskStep, hg, hr] using he
      | ok ro =>
        cases ro with
        | none => simpa only [taskStep, hg, hr] using he
        | some h => simpa only [taskStep, hg, hr] using he

/-- Task A's segment preserves the invariant. -/
lemma stepA_c9Inv (k : String) (o : CreateOutcome) (cfg : Config)
    (ho : o ≠ CreateOutcome.ok "") (h : c9Inv k cfg) :
    c9Inv k (stepA k o cfg) :=
  taskStep_session_count k o cfg.st cfg.w cfg.phaseA cfg.pendA cfg.retA
    ho h.1 h.2

/-- Task B's segment preserves the invariant. -/
lemma stepB_c9Inv (k : String) (o : CreateOutcome) (cfg : Config)
    (ho : o ≠ CreateOutcome.ok "") (h : c9Inv k cfg) :
    c9Inv k (stepB k o cfg) :=
  taskStep_session_count k o cfg.st cfg.w cfg.phaseB cfg.pendB cfg.retB
    ho h.1 h.2

/-- Any scheduler step preserves the invariant. -/
lemma step_c9Inv (k : String) (oA oB : CreateOutcome) (cfg : Config)
    (who : Bool) (hA : oA ≠ CreateOutcome.ok "")
    (hB : oB ≠ CreateOutcome.ok "") (h : c9Inv k cfg) :
    c9Inv k (step k oA oB cfg who) := by
  cases who with
  | true => exact stepA_c9Inv k oA cfg hA h
  | false => exact stepB_c9Inv k oB cfg hB h

/-- Any schedule preserves the invariant. -/
lemma runSched_c9Inv (k : String) (oA oB : CreateOutcome)
    (hA : oA ≠ CreateOutcome.ok "") (hB : oB ≠ CreateOutcome.ok "") :
    ∀ (sched : List Bool) (cfg : Config),
      c9Inv k cfg → c9Inv k (runSched k oA oB sched cfg)
  | [], _, h => h
  | who :: rest, cfg, h =>
    runSched_c9Inv k oA oB hA hB rest (step k oA oB cfg who)
      (step_c9Inv k oA oB cfg who hA hB h)

/-- C9: on the cooperative event loop, two concurrent
`ensure_sandbox(k)` callers create at most one vendor session, under
every interleaving of their atomic segments.  `ensure_sandbox` has no
`await` between the initial slot check and the store of the created
handle (its only `await` is the notify call after the store), so the
check/create/store block runs atomically and the second caller always
observes the stored handle.  The hypotheses exclude the degenerate
vendor answer of a created session carrying an empty session id. -/
theorem c9_at_most_one_session (k : String) (oA oB : CreateOutcome)
    (sched : List Bool) (hA : oA ≠ CreateOutcome.ok "")
    (hB : oB ≠ CreateOutcome.ok "") :
    (runSched k oA oB sched initConfig).w.sessionsCreated ≤ 1 :=
  (runSched_c9Inv k oA oB hA hB sched initConfig
    ⟨Nat.zero_le 1, fun _ => rfl⟩).1

/-- Witness for C9: a fully interleaved schedule of two successful
`ensure_sandbox("linux")` callers creates at most one session. -/
theorem c9_at_most_one_session_witness :
    (runSched "linux" (.ok "sid-a") (.ok "sid-b") [true, false, true, false]
      initConfig).w.sessionsCreated ≤ 1 :=
  c9_at_most_one_session "linux" (.ok "sid-a") (.ok "sid-b")
    [true, false, true, false] (by decide) (by decide)

end AgentscopeRuntime
